import Mathlib

/-!
Verification of the langflow multi-tenant request pipeline middleware.

Shallow embedding of:
- `middleware/error_handling.py` (circuit breaker, retry loop, error
  classification and the error envelope),
- `middleware/rate_limiting.py` (sliding-window rate limiter),
- `middleware/tenant_context.py` (tenant context resolution and row-level
  security scoping),
- `services/billing/usage_service.py` and
  `services/database/models/subscription/crud.py` (quota checks).

External effects are modelled as explicit inputs and outputs: reads from the
shared cache are passed in as values, writes are returned as values, database
lookups are given as an oracle outcome, and wall-clock time is an explicit
rational-number parameter (`time.time()` returns a float; its arithmetic here
is exact rational arithmetic, which agrees with the float computation on the
small concrete instances used below).
-/

namespace Langflow

/-- Circuit breaker states, from `CircuitState` in `error_handling.py`. -/
inductive CircuitState where
  | closed
  | opened
  | halfOpen
deriving DecidableEq, Repr

/-- The `CircuitBreakerConfig` dataclass from `error_handling.py` (integer fields with the
same defaults as the Python dataclass). -/
structure CircuitBreakerConfig where
  failureThreshold : Nat := 5
  recoveryTimeout : Nat := 60
  successThreshold : Nat := 3
  monitoringWindow : Nat := 300
deriving DecidableEq, Repr

/-- The circuit record stored in the shared cache under `circuit:{pattern}`:
the dict written by `_record_circuit_success` / `_record_circuit_failure` with
keys `state`, `failure_count`, `success_count`, `last_failure_time`. -/
structure CircuitData where
  state : CircuitState
  failureCount : Nat
  successCount : Nat
  lastFailureTime : ℚ
deriving DecidableEq, Repr

/-- The fresh record both recorders create when the cache has no entry. -/
def defaultCircuitData : CircuitData :=
  { state := CircuitState.closed
    failureCount := 0
    successCount := 0
    lastFailureTime := 0 }

/-- Embeds `ErrorHandlingMiddleware._check_circuit_breaker`, with the cache read
passed in as `data` (`none` when the cache holds no record) and the cache
manager assumed reachable (the fail-open `except` path is not taken).
Returns the admission decision together with the record written back to the
cache, when one is written. -/
def check_circuit_breaker (cfg : CircuitBreakerConfig) (data : Option CircuitData)
    (now : ℚ) : Bool × Option CircuitData :=
  match data with
  | none => (true, none)
  | some d =>
    match d.state with
    | CircuitState.closed => (true, none)
    | CircuitState.opened =>
      if (cfg.recoveryTimeout : ℚ) ≤ now - d.lastFailureTime then
        (true, some { d with state := CircuitState.halfOpen, successCount := 0 })
      else
        (false, none)
    | CircuitState.halfOpen => (true, none)

/-- Embeds `ErrorHandlingMiddleware._record_circuit_success`: the record written back
to the cache together with the TTL used for the write (always the monitoring
window). The read is passed in as `data`. -/
def record_circuit_success (cfg : CircuitBreakerConfig) (data : Option CircuitData) :
    CircuitData × Nat :=
  let d := data.getD defaultCircuitData
  let s := d.successCount + 1
  match d.state with
  | CircuitState.halfOpen =>
    if cfg.successThreshold ≤ s then
      (defaultCircuitData, cfg.monitoringWindow)
    else
      ({ d with successCount := s }, cfg.monitoringWindow)
  | _ => (d, cfg.monitoringWindow)

/-- Embeds `ErrorHandlingMiddleware._record_circuit_failure`: the record written back
to the cache together with the TTL used for the write. -/
def record_circuit_failure (cfg : CircuitBreakerConfig) (data : Option CircuitData)
    (now : ℚ) : CircuitData × Nat :=
  let d := data.getD defaultCircuitData
  let f := d.failureCount + 1
  let d1 := { d with failureCount := f, lastFailureTime := now, successCount := 0 }
  if d.state ≠ CircuitState.opened ∧ cfg.failureThreshold ≤ f then
    ({ d1 with state := CircuitState.opened }, cfg.monitoringWindow)
  else if d.state = CircuitState.halfOpen then
    ({ d1 with state := CircuitState.opened }, cfg.monitoringWindow)
  else
    (d1, cfg.monitoringWindow)

/-- Record one failure per element of `times`, threading the cache record. -/
def record_failures (cfg : CircuitBreakerConfig) (data : Option CircuitData)
    (times : List ℚ) : Option CircuitData :=
  times.foldl (fun acc t => some (record_circuit_failure cfg acc t).1) data

/-- Record `n` consecutive successes, threading the cache record. -/
def record_successes (cfg : CircuitBreakerConfig) (d : CircuitData) : Nat → CircuitData
  | 0 => d
  | n + 1 => record_successes cfg (record_circuit_success cfg (some d)).1 n

/-- The error taxonomy, from `ErrorType` in `error_handling.py`. -/
inductive ErrorType where
  | validation
  | authentication
  | authorization
  | notFound
  | rateLimit
  | serviceUnavailable
  | database
  | externalApi
  | internalServer
  | timeout
  | network
deriving DecidableEq, Repr

/-- The `value` string of each `ErrorType` enum member. -/
def error_type_value : ErrorType → String
  | ErrorType.validation => "validation"
  | ErrorType.authentication => "authentication"
  | ErrorType.authorization => "authorization"
  | ErrorType.notFound => "not_found"
  | ErrorType.rateLimit => "rate_limit"
  | ErrorType.serviceUnavailable => "service_unavailable"
  | ErrorType.database => "database"
  | ErrorType.externalApi => "external_api"
  | ErrorType.internalServer => "internal_server"
  | ErrorType.timeout => "timeout"
  | ErrorType.network => "network"

/-- The static message template table `self.error_messages`. -/
def error_messages : ErrorType → String
  | ErrorType.validation => "Invalid input data. Please check your request and try again."
  | ErrorType.authentication => "Authentication failed. Please check your credentials."
  | ErrorType.authorization => "Access denied. You don't have permission to perform this action."
  | ErrorType.notFound => "The requested resource was not found."
  | ErrorType.rateLimit => "Too many requests. Please slow down and try again later."
  | ErrorType.serviceUnavailable => "Service is temporarily unavailable. Please try again later."
  | ErrorType.database => "Database error occurred. Please try again later."
  | ErrorType.externalApi => "External service error. Please try again later."
  | ErrorType.internalServer => "An internal error occurred. Our team has been notified."
  | ErrorType.timeout => "Request timed out. Please try again."
  | ErrorType.network => "Network error occurred. Please check your connection."

/-- A Python failure as seen by `_classify_error`: either an `HTTPException`
carrying a status code and detail string, or any other exception carrying its
`str(error)` text. -/
inductive PyError where
  | httpExc (status : Nat) (detail : String)
  | exc (text : String)
deriving DecidableEq, Repr

/-- Python's `str(error)`: starlette's `HTTPException.__str__` renders
`"{status_code}: {detail}"`; a plain exception renders its text. -/
def py_str_of_error : PyError → String
  | PyError.httpExc s d => toString s ++ ": " ++ d
  | PyError.exc t => t

/-- Python's `s.startswith(p)` (character-level prefix test). -/
def str_starts_with (s p : String) : Bool :=
  List.isPrefixOf p.toList s.toList

/-- Whether a string is empty (character-level). -/
def str_is_empty (s : String) : Bool :=
  s.toList.isEmpty

/-- Python's `s.lower()` (character-level). -/
def str_to_lower (s : String) : String :=
  String.mk (s.toList.map Char.toLower)

/-- Substring containment on character lists (Python's `sub in s`). -/
def chars_contain (sub : List Char) : List Char → Bool
  | [] => sub.isEmpty
  | c :: rest => List.isPrefixOf sub (c :: rest) || chars_contain sub rest

/-- Python's `sub in s` on strings. -/
def str_contains (s sub : String) : Bool :=
  chars_contain sub.toList s.toList

/-- The classification `_classify_error` returns: error type, HTTP status,
user-facing message, optional detail. -/
structure Classification where
  errorType : ErrorType
  status : Nat
  message : String
  detail : Option String
deriving DecidableEq, Repr

/-- The keyword-matching tail of `_classify_error`, applied to `str(error)`:
matching runs on the lower-cased text; timeout and network classifications
carry the original `str(error)` as detail. -/
def keyword_classify (txt : String) : Classification :=
  let l := str_to_lower txt
  if str_contains l "timeout" || str_contains l "timed out" then
    ⟨ErrorType.timeout, 408, error_messages ErrorType.timeout, some txt⟩
  else if str_contains l "connection" || str_contains l "network" then
    ⟨ErrorType.network, 503, error_messages ErrorType.network, some txt⟩
  else if str_contains l "database" || str_contains l "sql" then
    ⟨ErrorType.database, 503, error_messages ErrorType.database, none⟩
  else if str_contains l "api" && (str_contains l "external" || str_contains l "third") then
    ⟨ErrorType.externalApi, 503, error_messages ErrorType.externalApi, none⟩
  else
    ⟨ErrorType.internalServer, 500, error_messages ErrorType.internalServer, none⟩

/-- Embeds `ErrorHandlingMiddleware._classify_error`. An `HTTPException` whose status
is none of the handled codes falls through to keyword matching on its
`str(error)` text, exactly as the Python `if isinstance` block does. -/
def classify_error : PyError → Classification
  | PyError.httpExc s d =>
    if s = 400 then ⟨ErrorType.validation, s, error_messages ErrorType.validation, some d⟩
    else if s = 401 then ⟨ErrorType.authentication, s, error_messages ErrorType.authentication, none⟩
    else if s = 403 then ⟨ErrorType.authorization, s, error_messages ErrorType.authorization, none⟩
    else if s = 404 then ⟨ErrorType.notFound, s, error_messages ErrorType.notFound, none⟩
    else if s = 429 then ⟨ErrorType.rateLimit, s, error_messages ErrorType.rateLimit, none⟩
    else if 500 ≤ s then ⟨ErrorType.internalServer, s, error_messages ErrorType.internalServer, none⟩
    else keyword_classify (py_str_of_error (PyError.httpExc s d))
  | PyError.exc t => keyword_classify t

/-- The error envelope (`ErrorResponse` pydantic model), without the
wall-clock `timestamp` and the constant-format `help_url` fields. -/
structure ErrorEnvelope where
  error : Bool
  errorType : ErrorType
  message : String
  detail : Option String
  code : String
  requestID : String
  retryAfter : Option Nat
deriving DecidableEq, Repr

/-- Embeds `ErrorHandlingMiddleware._create_error_response`: the envelope plus the
HTTP status of the JSON response. -/
def create_error_response (t : ErrorType) (message : String) (requestID : String)
    (statusCode : Nat) (detail : Option String)
    (retryAfter : Option Nat) : ErrorEnvelope × Nat :=
  ({ error := true
     errorType := t
     message := message
     detail := detail
     code := "E" ++ toString statusCode ++ "_" ++ (error_type_value t).toUpper
     requestID := requestID
     retryAfter := retryAfter }, statusCode)

/-- Embeds `ErrorHandlingMiddleware._handle_error`: classify, then build the
response (the server-side log is a side effect outside the embedding). -/
def handle_error (e : PyError) (requestID : String) : ErrorEnvelope × Nat :=
  let c := classify_error e
  create_error_response c.errorType c.message requestID c.status c.detail none

/-- One attempt of the downstream handler, as observed by
`_execute_with_retry`: either a response with a status code, or a raised
exception with its text. -/
inductive AttemptOutcome where
  | response (status : Nat)
  | raises (text : String)
deriving DecidableEq, Repr

/-- The `last_exception` variable of `_execute_with_retry`. -/
inductive LastExc where
  | httpError (status : Nat)
  | exc (text : String)
deriving DecidableEq, Repr

/-- What `_execute_with_retry` does on exit: return a response annotated with
the 1-based attempt count (the `X-Retry-Attempt` header), or raise. -/
inductive RetryOutcome where
  | returned (status : Nat) (attemptCount : Nat)
  | raisedHttp (status : Nat)
  | raisedExc (text : String)
  | raisedDefault
deriving DecidableEq, Repr

/-- A recording call made against the circuit breaker store. -/
inductive CircuitEvent where
  | success
  | failure
deriving DecidableEq, Repr

/-- The `for attempt in range(max_attempts)` loop of `_execute_with_retry`,
with `outcomes` giving the result of each attempt (0-based index) and the
circuit recordings emitted collected in order. A failed attempt (status ≥ 500
or a raised exception) only updates `last_exception` and proceeds to the next
attempt; only after the loop exhausts all attempts is one circuit failure
recorded, before the last exception is raised. A succeeding attempt
(status < 500) records one circuit success and returns immediately. -/
def retry_loop (outcomes : Nat → AttemptOutcome) :
    Nat → Nat → Option LastExc → RetryOutcome × List CircuitEvent
  | 0, _, lastExc =>
    (match lastExc with
     | some (LastExc.httpError s) => RetryOutcome.raisedHttp s
     | some (LastExc.exc t) => RetryOutcome.raisedExc t
     | none => RetryOutcome.raisedDefault,
     [CircuitEvent.failure])
  | r + 1, attempt, _ =>
    match outcomes attempt with
    | AttemptOutcome.response s =>
      if s < 500 then
        (RetryOutcome.returned s (attempt + 1), [CircuitEvent.success])
      else
        retry_loop outcomes r (attempt + 1) (some (LastExc.httpError s))
    | AttemptOutcome.raises t =>
      retry_loop outcomes r (attempt + 1) (some (LastExc.exc t))

/-- Embeds `ErrorHandlingMiddleware._execute_with_retry` with `max_attempts` from the
retry configuration (retry delays are wall-clock sleeps, outside the
embedding; they do not touch the circuit store). -/
def execute_with_retry (maxAttempts : Nat) (outcomes : Nat → AttemptOutcome) :
    RetryOutcome × List CircuitEvent :=
  retry_loop outcomes maxAttempts 0 none

/-- The circuit recordings of a full `dispatch` pass through
`_execute_with_retry`: when the retry loop raises, dispatch's `except` block
records one further circuit failure before classifying the error. -/
def dispatch_circuit_events (maxAttempts : Nat) (outcomes : Nat → AttemptOutcome) :
    List CircuitEvent :=
  match execute_with_retry maxAttempts outcomes with
  | (RetryOutcome.returned _ _, evts) => evts
  | (_, evts) => evts ++ [CircuitEvent.failure]

/-- The circuit-breaker admission step of `ErrorHandlingMiddleware.dispatch`:
when `_check_circuit_breaker` denies, the request is rejected with a
service-unavailable error whose `retry_after` is
`circuit_config.recovery_timeout`. Returns `none` when admitted. -/
def circuit_rejection (cfg : CircuitBreakerConfig) (data : Option CircuitData)
    (now : ℚ) : Option (ErrorType × Nat) :=
  if (check_circuit_breaker cfg data now).1 then none
  else some (ErrorType.serviceUnavailable, cfg.recoveryTimeout)

/-- Python's `int()` on a float: truncation toward zero. -/
def py_int (x : ℚ) : Int :=
  if x < 0 then Int.ceil x else Int.floor x

/-- The `while` loop of `RateLimitMiddleware._check_rate_limit` that pops
entries from the front of the deque while the front is older than
`now - window_seconds`. -/
def prune_window (windowSeconds : ℚ) (now : ℚ) : List ℚ → List ℚ
  | [] => []
  | t :: rest =>
    if t < now - windowSeconds then prune_window windowSeconds now rest
    else t :: rest

/-- Embeds `RateLimitMiddleware._check_rate_limit` for one `(client, endpoint)` key:
prune old entries, reject when the remaining count reaches `max_requests`,
otherwise append `now` and allow. Returns the decision and the deque stored
after the call. -/
def check_rate_limit (maxRequests : Nat) (windowSeconds : ℚ) (records : List ℚ)
    (now : ℚ) : Bool × List ℚ :=
  let pruned := prune_window windowSeconds now records
  if maxRequests ≤ pruned.length then (false, pruned)
  else (true, pruned ++ [now])

/-- Embeds `RateLimitMiddleware._get_retry_after`: 60 for an empty deque, otherwise
`max(1, int(oldest + window_seconds - now))`. -/
def get_retry_after (windowSeconds : ℚ) (records : List ℚ) (now : ℚ) : Int :=
  match records with
  | [] => 60
  | oldest :: _ => max 1 (py_int (oldest + windowSeconds - now))

/-- Python `dict.get(key, default)` over an association list. -/
def dict_get (m : List (String × Int)) (key : String) (dflt : Int) : Int :=
  match m.lookup key with
  | some v => v
  | none => dflt

/-- A subscription plan's `limits` dict, keyed by the metric value string. -/
structure SubscriptionPlan where
  limits : List (String × Int)
deriving DecidableEq, Repr

/-- The `UsageSummary` built by `UsageMetricCRUD.get_usage_summary`, reduced
to the fields the quota check reads (the `usage_percentage` map is derived
display data). -/
structure UsageSummaryModel where
  periodStart : Int
  periodEnd : Int
  metrics : List (String × Int)
  limits : List (String × Int)
deriving DecidableEq, Repr

/-- Embeds `UsageMetricCRUD.get_usage_summary` with the database aggregation result
passed in as `usageData` and the subscription lookup as `subscription`:
`limits = subscription.plan.limits if subscription else {}`. The billing
period (from the subscription, or the calendar-month fallback) only labels
the summary. -/
def get_usage_summary (usageData : List (String × Int))
    (subscription : Option SubscriptionPlan) (periodStart periodEnd : Int) :
    UsageSummaryModel :=
  { periodStart := periodStart
    periodEnd := periodEnd
    metrics := usageData
    limits :=
      match subscription with
      | some p => p.limits
      | none => [] }

/-- Embeds `UsageMetricCRUD.check_usage_limit` reading the given summary:
`current_usage = summary.metrics.get(metric, 0)`,
`limit = summary.limits.get(metric, 0)`; `-1` means unlimited; otherwise
allowed iff `current_usage + increment <= limit`. Returns
`(can_use, current_usage, limit)`. -/
def check_usage_limit (summary : UsageSummaryModel) (metric : String)
    (increment : Int) : Bool × Int × Int :=
  let currentUsage := dict_get summary.metrics metric 0
  let limit := dict_get summary.limits metric 0
  if limit = -1 then (true, currentUsage, limit)
  else (decide (currentUsage + increment ≤ limit), currentUsage, limit)

/-- The `quota_info` dict built by `UsageService.check_quota`. -/
structure QuotaInfo where
  metricType : String
  currentUsage : Int
  limit : Int
  requestedAmount : Int
  remaining : Int
  unlimited : Bool
deriving DecidableEq, Repr

/-- Embeds `UsageService.check_quota` on the non-exception path:
wraps `check_usage_limit` and computes
`remaining = limit - current_usage if limit > 0 else -1` and
`unlimited = limit == -1`. -/
def check_quota (summary : UsageSummaryModel) (metric : String)
    (requestedAmount : Int) : Bool × QuotaInfo :=
  let r := check_usage_limit summary metric requestedAmount
  (r.1,
   { metricType := metric
     currentUsage := r.2.1
     limit := r.2.2
     requestedAmount := requestedAmount
     remaining := if 0 < r.2.2 then r.2.2 - r.2.1 else -1
     unlimited := decide (r.2.2 = -1) })

/-- Session-level statements executed by the tenant middleware's membership
lookups, in execution order. -/
inductive SessionCmd where
  | setRlsOff
  | membershipQuery
  | setRlsOn
deriving DecidableEq, Repr

/-- Outcome of `OrganizationCRUD.get_user_organizations` (a database call,
external to the middleware): the ids of the organizations the user belongs
to, or a raised exception. -/
inductive LookupResult where
  | ok (orgs : List String)
  | raises
deriving DecidableEq, Repr

/-- Row-security flag at the end of a trace of session statements, starting
from enabled. -/
def rls_on_after (cmds : List SessionCmd) : Bool :=
  cmds.foldl
    (fun flag cmd =>
      match cmd with
      | SessionCmd.setRlsOff => false
      | SessionCmd.setRlsOn => true
      | SessionCmd.membershipQuery => flag)
    true

/-- Python truthiness of an optional string (`if s:`). -/
def py_truthy : Option String → Bool
  | some s => !(str_is_empty s)
  | none => false

/-- Embeds `TenantContextMiddleware._get_user_default_organization`: runs
`SET row_security = off`, the membership query, `SET row_security = on`, and
returns the first organization id (or `None`). When the query raises, control
jumps to the `except`, which logs and returns `None` — the re-enable
statement is never executed. The result is paired with the session-statement
trace actually executed. -/
def get_user_default_organization (lookup : LookupResult) :
    Option String × List SessionCmd :=
  match lookup with
  | LookupResult.raises =>
    (none, [SessionCmd.setRlsOff, SessionCmd.membershipQuery])
  | LookupResult.ok orgs =>
    (orgs.head?, [SessionCmd.setRlsOff, SessionCmd.membershipQuery, SessionCmd.setRlsOn])

/-- Embeds `TenantContextMiddleware._validate_organization_access` with the
membership query outcome given by `lookup`. With no (truthy) user id on the
request state the check passes without touching the session. An exception
from the query is caught and yields `False`, skipping the re-enable
statement. -/
def validate_organization_access (userId : Option String) (lookup : LookupResult)
    (orgId : String) : Bool × List SessionCmd :=
  if !py_truthy userId then (true, [])
  else
    match lookup with
    | LookupResult.raises =>
      (false, [SessionCmd.setRlsOff, SessionCmd.membershipQuery])
    | LookupResult.ok orgs =>
      (orgs.contains orgId,
       [SessionCmd.setRlsOff, SessionCmd.membershipQuery, SessionCmd.setRlsOn])

/-- The request fields `TenantContextMiddleware` reads. -/
structure TenantRequest where
  path : String
  headerOrg : Option String
  pathOrg : Option String
  queryOrg : Option String
  userId : Option String
deriving DecidableEq, Repr

/-- The `self.excluded_paths` set (exact matches). -/
def excluded_paths : List String :=
  ["/api/v1/login", "/api/v1/users", "/api/v1/billing/organizations",
   "/api/v1/billing/plans", "/docs", "/openapi.json", "/health"]

/-- The `skip_prefixes` list in `_should_skip_path`. -/
def skip_path_prefixes : List String :=
  ["/docs", "/static", "/_internal", "/health"]

/-- Embeds `TenantContextMiddleware._should_skip_path`. -/
def should_skip_path (path : String) : Bool :=
  excluded_paths.contains path
    || skip_path_prefixes.any (fun p => str_starts_with path p)

/-- Embeds `TenantContextMiddleware._extract_organization_id`: header, then path
parameter (a membership test, so even an empty value is returned), then query
parameter, then default-organization inference for a truthy user id. -/
def extract_organization_id (req : TenantRequest) (lookup : LookupResult) :
    Option String × List SessionCmd :=
  if py_truthy req.headerOrg then (req.headerOrg, [])
  else if req.pathOrg.isSome then (req.pathOrg, [])
  else if py_truthy req.queryOrg then (req.queryOrg, [])
  else if py_truthy req.userId then get_user_default_organization lookup
  else (none, [])

/-- Outcome of `_set_tenant_context` (it re-raises on failure). -/
inductive SetContextOutcome where
  | ok
  | raises
deriving DecidableEq, Repr

/-- What `TenantContextMiddleware.dispatch` ends up doing. `handled ctx`
means `call_next` ran, with `request.state.current_organization_id = ctx`
(`none` when no tenant context was established). -/
inductive TenantResponse where
  | skipped
  | forbidden
  | handled (ctx : Option String)
deriving DecidableEq, Repr

/-- Embeds `TenantContextMiddleware.dispatch`: skip excluded routes; extract an
organization id; when one is (truthily) present, validate access and either
set the tenant context and proceed, or answer 403. Any exception in the `try`
block — in particular one raised by `_set_tenant_context` — is caught by the
`except`, which logs and invokes `call_next` anyway, without tenant context.
When no organization id resolves, `call_next` runs without tenant context. -/
def tenant_dispatch (req : TenantRequest) (lookup : LookupResult)
    (setCtx : SetContextOutcome) : TenantResponse :=
  if should_skip_path req.path then TenantResponse.skipped
  else
    match (extract_organization_id req lookup).1 with
    | some o =>
      if str_is_empty o then TenantResponse.handled none
      else if (validate_organization_access req.userId lookup o).1 then
        match setCtx with
        | SetContextOutcome.ok => TenantResponse.handled (some o)
        | SetContextOutcome.raises => TenantResponse.handled none
      else TenantResponse.forbidden
    | none => TenantResponse.handled none

/-- An attempt that the retry loop treats as failed: a response with status
at least 500, or a raised exception. -/
def attempt_fails : AttemptOutcome → Bool
  | AttemptOutcome.response s => decide (500 ≤ s)
  | AttemptOutcome.raises _ => true

/-- Whether the retry loop returned a response (as opposed to raising). -/
def is_returned : RetryOutcome → Bool
  | RetryOutcome.returned _ _ => true
  | _ => false

/-- C5: `check_quota` decides `used + amount ≤ limit` against the
billing-period snapshot it is given, with `limit = -1` always allowed; at
`used = 95`, `limit = 100`, `amount = 10` it returns `allowed = false` with
`remaining = 5`. -/
theorem check_quota_spec (summary : UsageSummaryModel) (metric : String)
    (amount : Int) :
    (dict_get summary.limits metric 0 = -1 →
      (check_quota summary metric amount).1 = true) ∧
    (dict_get summary.limits metric 0 ≠ -1 →
      ((check_quota summary metric amount).1 = true ↔
        dict_get summary.metrics metric 0 + amount ≤ dict_get summary.limits metric 0)) ∧
    (check_quota (get_usage_summary [("api_calls", 95)]
        (some { limits := [("api_calls", 100)] }) 0 0) "api_calls" 10).1 = false ∧
    (check_quota (get_usage_summary [("api_calls", 95)]
        (some { limits := [("api_calls", 100)] }) 0 0) "api_calls" 10).2.remaining = 5 := by
  refine ⟨?_, ?_, by decide, by decide⟩
  · intro h
    simp [check_quota, check_usage_limit, h]
  · intro h
    simp [check_quota, check_usage_limit, h]

/-- C5 witness: the amended-free general clauses evaluated at the unlimited
plan instance. -/
theorem check_quota_spec_witness :
    (check_quota (get_usage_summary [("api_calls", 95)]
        (some { limits := [("api_calls", -1)] }) 0 0) "api_calls" 10).1 = true :=
  (check_quota_spec (get_usage_summary [("api_calls", 95)]
      (some { limits := [("api_calls", -1)] }) 0 0) "api_calls" 10).1 (by decide)

/-- C10: with no active subscription the limits map is empty, every metric's
limit resolves to 0 (not unlimited), and the quota check denies any requested
amount ≥ 1 at nonnegative current usage; the billing-period parameters do not
affect the limits. -/
theorem no_subscription_zero_limit (usageData : List (String × Int))
    (metric : String) (amount : Int) (ps pe psAlt peAlt : Int)
    (hused : 0 ≤ dict_get usageData metric 0) (hamt : 1 ≤ amount) :
    (get_usage_summary usageData none ps pe).limits = [] ∧
    dict_get (get_usage_summary usageData none ps pe).limits metric 0 = 0 ∧
    (check_quota (get_usage_summary usageData none ps pe) metric amount).1 = false ∧
    (get_usage_summary usageData none ps pe).limits
      = (get_usage_summary usageData none psAlt peAlt).limits := by
  refine ⟨rfl, rfl, ?_, rfl⟩
  simp only [check_quota, check_usage_limit, get_usage_summary]
  have hz : dict_get [] metric 0 = 0 := rfl
  simp [hz]
  omega

/-- C10 witness: a tenant with no subscription, zero usage, one requested
unit, denied. -/
theorem no_subscription_zero_limit_witness :
    (check_quota (get_usage_summary [] none 0 0) "api_calls" 1).1 = false :=
  (no_subscription_zero_limit [] "api_calls" 1 0 0 5 7 (by decide) (by decide)).2.2.1

/-- C9: recording a success while the stored record is Closed writes the
record back unchanged (TTL refreshed to the monitoring window); consequently
a failure recorded after such a success sees the same record as without it,
so the interleaved success never resets the failure count. -/
theorem closed_success_frame (cfg : CircuitBreakerConfig) (d : CircuitData)
    (t : ℚ) (h : d.state = CircuitState.closed) :
    record_circuit_success cfg (some d) = (d, cfg.monitoringWindow) ∧
    record_circuit_failure cfg (some (record_circuit_success cfg (some d)).1) t
      = record_circuit_failure cfg (some d) t := by
  have h1 : record_circuit_success cfg (some d) = (d, cfg.monitoringWindow) := by
    simp [record_circuit_success, h]
  exact ⟨h1, by rw [h1]⟩

/-- C9 witness: a Closed record with two accumulated failures is written back
unchanged by a success recording. -/
theorem closed_success_frame_witness :
    record_circuit_success {}
      (some { state := CircuitState.closed, failureCount := 2,
              successCount := 0, lastFailureTime := 4 })
      = ({ state := CircuitState.closed, failureCount := 2, successCount := 0,
           lastFailureTime := 4 }, (300 : Nat)) :=
  (closed_success_frame {}
    { state := CircuitState.closed, failureCount := 2,
      successCount := 0, lastFailureTime := 4 } 9 rfl).1

/-- C2 counterexample: when the membership query raises, the exception jumps
to the `except` before `SET row_security = on` runs, so the session scope is
exited with row security still disabled — refuting re-enablement on every
exit path. -/
theorem rls_reenable_missing_cex :
    rls_on_after (get_user_default_organization LookupResult.raises).2 = false ∧
    rls_on_after
      (validate_organization_access (some "u1") LookupResult.raises "org1").2 = false ∧
    (get_user_default_organization LookupResult.raises).1 = none := by
  decide

/-- C2 amended: row filtering is suspended for the single membership query
and re-enabled on the success path of both lookups; on the path where the
query raises, the re-enable statement is skipped and the session scope exits
with row security still disabled (the error is caught and `None` / `False`
returned). -/
theorem rls_reenable_amended (userId : Option String) (orgs : List String)
    (orgId : String) (hu : py_truthy userId = true) :
    rls_on_after (get_user_default_organization (LookupResult.ok orgs)).2 = true ∧
    rls_on_after
      (validate_organization_access userId (LookupResult.ok orgs) orgId).2 = true ∧
    rls_on_after (get_user_default_organization LookupResult.raises).2 = false ∧
    rls_on_after
      (validate_organization_access userId LookupResult.raises orgId).2 = false := by
  refine ⟨rfl, ?_, rfl, ?_⟩ <;>
    simp [validate_organization_access, hu, rls_on_after]

/-- C2 witness: the amended statement at a concrete user and membership. -/
theorem rls_reenable_amended_witness :
    rls_on_after (get_user_default_organization (LookupResult.ok ["org1"])).2 = true ∧
    rls_on_after
      (validate_organization_access (some "u1") (LookupResult.ok ["org1"]) "org1").2 = true ∧
    rls_on_after (get_user_default_organization LookupResult.raises).2 = false ∧
    rls_on_after
      (validate_organization_access (some "u1") LookupResult.raises "org1").2 = false :=
  rls_reenable_amended (some "u1") ["org1"] "org1" (by decide)

/-- C1 counterexample: on the non-exempted route `/api/v1/flows`, with the
tenant resolved from the header and the caller a verified member of it, an
internal error raised while setting the tenant context is caught by the
middleware's `except`, which invokes the downstream handler anyway without an
established tenant context — not a 403. -/
theorem tenant_fail_open_cex :
    tenant_dispatch
        { path := "/api/v1/flows", headerOrg := some "orgA", pathOrg := none,
          queryOrg := none, userId := some "u1" }
        (LookupResult.ok ["orgA"]) SetContextOutcome.raises
      = TenantResponse.handled none ∧
    should_skip_path "/api/v1/flows" = false := by
  decide

/-- C1 amended: on a non-exempted route with a resolved non-empty tenant id
and a truthy caller id, a caller who is not a member — and likewise an
internal error during the membership lookup — is answered 403 and the handler
is not invoked; but an internal error while setting the tenant context is
caught and the downstream handler is invoked anyway, without an established
tenant context. -/
theorem tenant_dispatch_amended (req : TenantRequest) (lookup : LookupResult)
    (setCtx : SetContextOutcome) (o : String)
    (hskip : should_skip_path req.path = false)
    (horg : (extract_organization_id req lookup).1 = some o)
    (hne : str_is_empty o = false)
    (hu : py_truthy req.userId = true) :
    ((validate_organization_access req.userId lookup o).1 = false →
      tenant_dispatch req lookup setCtx = TenantResponse.forbidden) ∧
    ((validate_organization_access req.userId lookup o).1 = true →
      tenant_dispatch req lookup SetContextOutcome.raises
        = TenantResponse.handled none) ∧
    (lookup = LookupResult.raises →
      tenant_dispatch req lookup setCtx = TenantResponse.forbidden) := by
  have hbase : ∀ sc, tenant_dispatch req lookup sc =
      (if (validate_organization_access req.userId lookup o).1 then
        (match sc with
         | SetContextOutcome.ok => TenantResponse.handled (some o)
         | SetContextOutcome.raises => TenantResponse.handled none)
       else TenantResponse.forbidden) := by
    intro sc
    simp [tenant_dispatch, hskip, horg, hne]
  refine ⟨fun hv => ?_, fun hv => ?_, fun hl => ?_⟩
  · simp [hbase, hv]
  · simp [hbase, hv]
  · subst hl
    have hv : (validate_organization_access req.userId LookupResult.raises o).1
        = false := by
      simp [validate_organization_access, hu]
    simp [hbase, hv]

/-- C1 witness: a caller with a session who is not a member of the tenant
named in the header receives 403. -/
theorem tenant_dispatch_amended_witness :
    tenant_dispatch
        { path := "/api/v1/flows", headerOrg := some "orgA", pathOrg := none,
          queryOrg := none, userId := some "u1" }
        (LookupResult.ok ["orgB"]) SetContextOutcome.ok
      = TenantResponse.forbidden :=
  (tenant_dispatch_amended
      { path := "/api/v1/flows", headerOrg := some "orgA", pathOrg := none,
        queryOrg := none, userId := some "u1" }
      (LookupResult.ok ["orgB"]) SetContextOutcome.ok "orgA"
      (by decide) (by decide) (by decide) (by decide)).1 (by decide)

/-- C7 counterexample: with recovery timeout 60 and last failure at time 0, a
request at time 10 is rejected with `retry_after = 60` — the full configured
recovery timeout — not the remaining 50 seconds. -/
theorem circuit_retry_after_cex :
    circuit_rejection { recoveryTimeout := 60 }
        (some { state := CircuitState.opened, failureCount := 5,
                successCount := 0, lastFailureTime := 0 }) 10
      = some (ErrorType.serviceUnavailable, 60) ∧ (60 : Nat) ≠ 60 - 10 := by
  refine ⟨?_, by norm_num⟩
  norm_num [circuit_rejection, check_circuit_breaker]

/-- C7 amended: whenever the circuit is Open and the recovery timeout has not
elapsed, the request is rejected with a ServiceUnavailable classification
whose `retry_after` is the full configured recovery timeout, regardless of
how much of it has already elapsed. -/
theorem circuit_open_rejection_amended (cfg : CircuitBreakerConfig)
    (d : CircuitData) (now : ℚ) (hopen : d.state = CircuitState.opened)
    (hel : now - d.lastFailureTime < (cfg.recoveryTimeout : ℚ)) :
    circuit_rejection cfg (some d) now
      = some (ErrorType.serviceUnavailable, cfg.recoveryTimeout) := by
  simp [circuit_rejection, check_circuit_breaker, hopen, not_le.mpr hel]

/-- C7 witness: a breaker with a 120-second recovery timeout rejects at 45
seconds after the last failure with `retry_after = 120`. -/
theorem circuit_open_rejection_amended_witness :
    circuit_rejection { recoveryTimeout := 120 }
        (some { state := CircuitState.opened, failureCount := 3,
                successCount := 0, lastFailureTime := 5 }) 50
      = some (ErrorType.serviceUnavailable, 120) :=
  circuit_open_rejection_amended { recoveryTimeout := 120 }
    { state := CircuitState.opened, failureCount := 3,
      successCount := 0, lastFailureTime := 5 } 50 rfl (by norm_num)

/-- Branch analysis of the keyword-matching classifier: the message is always
the static template of the resulting kind; only timeout and network
classifications carry a detail, and it is the raw `str(error)` text. -/
theorem keyword_classify_spec (txt : String) :
    (keyword_classify txt).message
      = error_messages (keyword_classify txt).errorType ∧
    ((keyword_classify txt).errorType ≠ ErrorType.timeout →
     (keyword_classify txt).errorType ≠ ErrorType.network →
     (keyword_classify txt).detail = none) ∧
    (((keyword_classify txt).errorType = ErrorType.timeout ∨
      (keyword_classify txt).errorType = ErrorType.network) →
     (keyword_classify txt).detail = some txt) := by
  simp only [keyword_classify]
  split_ifs <;> simp

/-- Branch analysis of `_classify_error`: the message is always the static
template of the resulting kind; the detail is populated only for validation
(the HTTPException detail) and for timeout and network keyword matches (the
raw `str(error)` text). -/
theorem classify_error_spec (e : PyError) :
    (classify_error e).message = error_messages (classify_error e).errorType ∧
    ((classify_error e).errorType ≠ ErrorType.validation →
     (classify_error e).errorType ≠ ErrorType.timeout →
     (classify_error e).errorType ≠ ErrorType.network →
     (classify_error e).detail = none) ∧
    (((classify_error e).errorType = ErrorType.timeout ∨
      (classify_error e).errorType = ErrorType.network) →
     (classify_error e).detail = some (py_str_of_error e)) := by
  cases e with
  | httpExc s d =>
    simp only [classify_error]
    split_ifs <;>
      first
        | (refine ⟨rfl, ?_, ?_⟩ <;> simp)
        | exact
            ⟨(keyword_classify_spec _).1,
             fun _ h2 h3 => (keyword_classify_spec _).2.1 h2 h3,
             fun h => (keyword_classify_spec _).2.2 h⟩
  | exc t =>
    exact
      ⟨(keyword_classify_spec t).1,
       fun _ h2 h3 => (keyword_classify_spec t).2.1 h2 h3,
       fun h => (keyword_classify_spec t).2.2 h⟩

/-- C8 counterexample: a failure classified by the network keyword match
carries the raw exception text in the envelope's detail field, so detail is
populated outside the Validation class and internal exception text reaches
the client. -/
theorem error_detail_leak_cex :
    (handle_error (PyError.exc "network glitch") "req-1").1.errorType
      = ErrorType.network ∧
    (handle_error (PyError.exc "network glitch") "req-1").1.detail
      = some "network glitch" ∧
    ErrorType.network ≠ ErrorType.validation := by
  decide

/-- C8 amended: the envelope's message is always the static template of its
kind; detail is populated only for Validation-class errors and for
timeout/network keyword matches — and for the latter two it carries the raw
`str(error)` text of the internal exception. -/
theorem error_envelope_detail_amended (e : PyError) (requestID : String) :
    (handle_error e requestID).1.message
      = error_messages (handle_error e requestID).1.errorType ∧
    ((handle_error e requestID).1.errorType ≠ ErrorType.validation →
     (handle_error e requestID).1.errorType ≠ ErrorType.timeout →
     (handle_error e requestID).1.errorType ≠ ErrorType.network →
     (handle_error e requestID).1.detail = none) ∧
    (((handle_error e requestID).1.errorType = ErrorType.timeout ∨
      (handle_error e requestID).1.errorType = ErrorType.network) →
     (handle_error e requestID).1.detail = some (py_str_of_error e)) :=
  classify_error_spec e

/-- C8 witness: a timeout-keyword failure carries its exception text as the
envelope detail. -/
theorem error_envelope_detail_amended_witness :
    (handle_error (PyError.exc "db timeout hit") "rid").1.detail
      = some (py_str_of_error (PyError.exc "db timeout hit")) :=
  (error_envelope_detail_amended (PyError.exc "db timeout hit") "rid").2.2
    (by decide)

/-- Front-pruning never lengthens the window. -/
theorem prune_window_length_le (w now : ℚ) (l : List ℚ) :
    (prune_window w now l).length ≤ l.length := by
  induction l with
  | nil => simp [prune_window]
  | cons t rest ih =>
    simp only [prune_window]
    split_ifs
    · exact le_trans ih (Nat.le_succ _)
    · exact le_refl _

/-- On a sorted window, front-pruning drops exactly the entries older than
`now - w`. -/
theorem prune_window_sorted (w now : ℚ) (l : List ℚ)
    (hs : l.Sorted (· ≤ ·)) :
    prune_window w now l = l.filter (fun t => decide (now - w ≤ t)) := by
  induction l with
  | nil => rfl
  | cons t rest ih =>
    rcases List.sorted_cons.mp hs with ⟨hall, hrest⟩
    simp only [prune_window]
    split_ifs with h
    · rw [ih hrest, List.filter_cons_of_neg]
      simp [not_le.mpr h]
    · rw [List.filter_cons_of_pos]
      · rw [List.filter_eq_self.mpr]
        intro a ha
        simp only [decide_eq_true_eq]
        exact le_trans (not_lt.mp h) (hall a ha)
      · simp [not_lt.mp h]

/-- C4 counterexample: window `[0]`, `window_seconds = 60`, `now = 57.5`:
the oldest entry ages out in 2.5 seconds, so the claimed `ceil` gives 3, but
`_get_retry_after` computes `max(1, int(2.5)) = 2`. -/
theorem rate_retry_after_cex :
    get_retry_after 60 [0] (115 / 2) = 2 ∧
    Int.ceil ((0 : ℚ) + 60 - 115 / 2) = 3 ∧ (2 : Int) ≠ 3 := by
  refine ⟨?_, ?_, by norm_num⟩
  · simp only [get_retry_after, py_int]
    rw [if_neg (by norm_num : ¬ ((0 : ℚ) + 60 - 115 / 2 < 0))]
    have hf : Int.floor ((0 : ℚ) + 60 - 115 / 2) = 2 := by
      rw [Int.floor_eq_iff]; norm_num
    rw [hf]
    norm_num
  · rw [Int.ceil_eq_iff]; norm_num

/-- C4 amended: on each call entries older than `now - windowSeconds` are
dropped (on a time-sorted window this is exactly the in-window filter); if
the remaining count is at least `maxRequests` the request is rejected and the
retry-after value is `max(1, int(oldest + windowSeconds - now))` — integer
truncation clamped below at 1, hence positive, rather than a ceiling;
otherwise `now` is appended and the request is allowed; and admission resumes
once the oldest entry has aged out of the window. -/
theorem rate_limit_sliding_window_amended (maxRequests : Nat) (windowSeconds : ℚ)
    (records : List ℚ) (now : ℚ) (hmax : 1 ≤ maxRequests) :
    ((check_rate_limit maxRequests windowSeconds records now).1 = false ↔
      maxRequests ≤ (prune_window windowSeconds now records).length) ∧
    ((check_rate_limit maxRequests windowSeconds records now).1 = true →
      (check_rate_limit maxRequests windowSeconds records now).2
        = prune_window windowSeconds now records ++ [now]) ∧
    ((check_rate_limit maxRequests windowSeconds records now).1 = false →
      (check_rate_limit maxRequests windowSeconds records now).2
        = prune_window windowSeconds now records) ∧
    (records.Sorted (· ≤ ·) →
      prune_window windowSeconds now records
        = records.filter (fun t => decide (now - windowSeconds ≤ t))) ∧
    (1 ≤ get_retry_after windowSeconds (prune_window windowSeconds now records) now) ∧
    (∀ oldest rest, prune_window windowSeconds now records = oldest :: rest →
      get_retry_after windowSeconds (prune_window windowSeconds now records) now
        = max 1 (py_int (oldest + windowSeconds - now))) ∧
    (∀ nowNext : ℚ, (prune_window windowSeconds now records).length = maxRequests →
      (∀ oldest rest, prune_window windowSeconds now records = oldest :: rest →
        oldest < nowNext - windowSeconds) →
      (check_rate_limit maxRequests windowSeconds
        (prune_window windowSeconds now records) nowNext).1 = true) := by
  refine ⟨?_, ?_, ?_, fun hs => prune_window_sorted _ _ _ hs, ?_, ?_, ?_⟩
  · simp only [check_rate_limit]
    split_ifs with h <;> simp [h]
  · intro hallow
    simp only [check_rate_limit] at hallow ⊢
    split_ifs at hallow ⊢ with h
    rfl
  · intro hrej
    simp only [check_rate_limit] at hrej ⊢
    split_ifs at hrej ⊢ with h
    rfl
  · cases hp : prune_window windowSeconds now records with
    | nil => simp [get_retry_after]
    | cons oldest rest => simp [get_retry_after, le_max_left]
  · intro oldest rest hp
    rw [hp]
    rfl
  · intro nowNext hlen hold
    cases hp : prune_window windowSeconds now records with
    | nil =>
      rw [hp] at hlen
      simp at hlen
      omega
    | cons oldest rest =>
      have ho := hold oldest rest hp
      rw [hp] at hlen
      simp only [List.length_cons] at hlen
      have hstep : prune_window windowSeconds nowNext (oldest :: rest)
          = prune_window windowSeconds nowNext rest := by
        simp [prune_window, ho]
      have hle : (prune_window windowSeconds nowNext rest).length ≤ rest.length :=
        prune_window_length_le _ _ _
      have hnot : ¬ (maxRequests
          ≤ (prune_window windowSeconds nowNext (oldest :: rest)).length) := by
        rw [hstep]
        omega
      simp [check_rate_limit, hnot]

/-- C4 witness: two admitted requests at times 0 and 1 in a 60-second window
with limit 2; at time 30 the next request is rejected with a positive
retry-after of `max(1, int(0 + 60 - 30)) = 30`. -/
theorem rate_limit_sliding_window_amended_witness :
    get_retry_after 60 (prune_window 60 30 [0, 1]) 30
      = max 1 (py_int ((0 : ℚ) + 60 - 30)) :=
  (rate_limit_sliding_window_amended 2 60 [0, 1] 30 (by norm_num)).2.2.2.2.2.1
    0 [1] (by norm_num [prune_window])

/-- A prefix of failing attempts followed by a success: the retry loop
returns that success annotated with the 1-based attempt count, emitting
exactly one success recording and no failure recordings. -/
theorem retry_loop_first_success (outcomes : Nat → AttemptOutcome) (s : Nat) :
    ∀ (i r attempt : Nat) (le : Option LastExc), i < r →
    (∀ j, j < i → attempt_fails (outcomes (attempt + j)) = true) →
    outcomes (attempt + i) = AttemptOutcome.response s → s < 500 →
    retry_loop outcomes r attempt le
      = (RetryOutcome.returned s (attempt + i + 1), [CircuitEvent.success]) := by
  intro i
  induction i with
  | zero =>
    intro r attempt le hr _ hs hlt
    match r, hr with
    | r + 1, _ =>
      rw [Nat.add_zero] at hs
      simp [retry_loop, hs, hlt]
  | succ i ih =>
    intro r attempt le hr hfail hs hlt
    match r, hr with
    | r + 1, hr =>
      have h0 := hfail 0 (Nat.succ_pos i)
      rw [Nat.add_zero] at h0
      have harith : attempt + 1 + i = attempt + (i + 1) := by omega
      have hfail' : ∀ j, j < i → attempt_fails (outcomes (attempt + 1 + j)) = true := by
        intro j hj
        have := hfail (j + 1) (by omega)
        rw [show attempt + (j + 1) = attempt + 1 + j by omega] at this
        exact this
      have hs' : outcomes (attempt + 1 + i) = AttemptOutcome.response s := by
        rw [harith]
        exact hs
      have hrec := ih r (attempt + 1) ?le (by omega) hfail' hs' hlt
      case le =>
        exact match outcomes attempt with
          | AttemptOutcome.response s0 => some (LastExc.httpError s0)
          | AttemptOutcome.raises t => some (LastExc.exc t)
      cases ho : outcomes attempt with
      | response s0 =>
        rw [ho] at h0
        simp only [attempt_fails, decide_eq_true_eq] at h0
        simp only [retry_loop, ho]
        rw [if_neg (by omega)]
        rw [ih r (attempt + 1) (some (LastExc.httpError s0)) (by omega) hfail' hs' hlt]
        rw [harith]
      | raises t =>
        simp only [retry_loop, ho]
        rw [ih r (attempt + 1) (some (LastExc.exc t)) (by omega) hfail' hs' hlt]
        rw [harith]

/-- When every attempt fails, the retry loop raises (it does not return) and
emits exactly one failure recording — after exhaustion, not per attempt. -/
theorem retry_loop_all_fail (outcomes : Nat → AttemptOutcome) :
    ∀ (r attempt : Nat) (le : Option LastExc),
    (∀ j, j < r → attempt_fails (outcomes (attempt + j)) = true) →
    is_returned (retry_loop outcomes r attempt le).1 = false ∧
    (retry_loop outcomes r attempt le).2 = [CircuitEvent.failure] := by
  intro r
  induction r with
  | zero =>
    intro attempt le _
    cases le with
    | none => exact ⟨rfl, rfl⟩
    | some e => cases e <;> exact ⟨rfl, rfl⟩
  | succ r ih =>
    intro attempt le hfail
    have h0 := hfail 0 (Nat.succ_pos r)
    rw [Nat.add_zero] at h0
    have hfail' : ∀ j, j < r → attempt_fails (outcomes (attempt + 1 + j)) = true := by
      intro j hj
      have := hfail (j + 1) (by omega)
      rw [show attempt + (j + 1) = attempt + 1 + j by omega] at this
      exact this
    cases ho : outcomes attempt with
    | response s0 =>
      rw [ho] at h0
      simp only [attempt_fails, decide_eq_true_eq] at h0
      simp only [retry_loop, ho]
      rw [if_neg (by omega)]
      exact ih (attempt + 1) (some (LastExc.httpError s0)) hfail'
    | raises t =>
      simp only [retry_loop, ho]
      exact ih (attempt + 1) (some (LastExc.exc t)) hfail'

/-- C6 counterexample: under two attempts where the first fails with a 500
and the second succeeds, the execution emits a single success recording and
no failure recording at all — the failed first attempt records nothing. -/
theorem retry_no_per_attempt_failure_cex :
    (execute_with_retry 2 (fun n => if n = 0 then AttemptOutcome.response 500
        else AttemptOutcome.response 200)).2 = [CircuitEvent.success] ∧
    CircuitEvent.failure ∉ (execute_with_retry 2
        (fun n => if n = 0 then AttemptOutcome.response 500
          else AttemptOutcome.response 200)).2 := by
  decide

/-- C6 amended: failed attempts record nothing at the time they fail; the
first attempt that succeeds (status < 500) records one circuit success and
returns immediately, annotated with the attempt count; only when all attempts
fail is a circuit failure recorded — once by the retry loop after exhaustion,
plus a second time by dispatch's exception handler. -/
theorem retry_recording_amended (outcomes : Nat → AttemptOutcome)
    (maxAttempts i s : Nat) (hi : i < maxAttempts)
    (hfail : ∀ j, j < i → attempt_fails (outcomes j) = true)
    (hs : outcomes i = AttemptOutcome.response s) (hlt : s < 500) :
    execute_with_retry maxAttempts outcomes
      = (RetryOutcome.returned s (i + 1), [CircuitEvent.success]) ∧
    (∀ g : Nat → AttemptOutcome,
      (∀ j, j < maxAttempts → attempt_fails (g j) = true) →
      (execute_with_retry maxAttempts g).2 = [CircuitEvent.failure] ∧
      dispatch_circuit_events maxAttempts g
        = [CircuitEvent.failure, CircuitEvent.failure]) := by
  constructor
  · have := retry_loop_first_success outcomes s i maxAttempts 0 none hi
      (by simpa using hfail) (by simpa using hs) hlt
    simpa [execute_with_retry] using this
  · intro g hg
    have hall := retry_loop_all_fail g maxAttempts 0 none (by simpa using hg)
    refine ⟨hall.2, ?_⟩
    rcases hres : retry_loop g maxAttempts 0 none with ⟨res, evts⟩
    rw [hres] at hall
    have h2 : evts = [CircuitEvent.failure] := hall.2
    cases res with
    | returned s0 a0 => simp [is_returned] at hall
    | raisedHttp s0 =>
      simp only [dispatch_circuit_events, execute_with_retry, hres]
      rw [h2]
      rfl
    | raisedExc t0 =>
      simp only [dispatch_circuit_events, execute_with_retry, hres]
      rw [h2]
      rfl
    | raisedDefault =>
      simp only [dispatch_circuit_events, execute_with_retry, hres]
      rw [h2]
      rfl

/-- C6 witness: first attempt fails with a 503, second succeeds with a 200;
the execution returns the 200 annotated with attempt count 2 and a single
success recording. -/
theorem retry_recording_amended_witness :
    execute_with_retry 2 (fun n => if n = 0 then AttemptOutcome.response 503
        else AttemptOutcome.response 200)
      = (RetryOutcome.returned 200 2, [CircuitEvent.success]) :=
  (retry_recording_amended
    (fun n => if n = 0 then AttemptOutcome.response 503
      else AttemptOutcome.response 200)
    2 1 200 (by decide) (by decide) (by decide) (by decide)).1

/-- One failure recording on a record whose state is Closed below the
threshold or Open at/above it: the count is incremented, the failure time
stamped, the success count zeroed, and the state is Open exactly when the
new count has reached the threshold. -/
theorem record_circuit_failure_step (cfg : CircuitBreakerConfig)
    (d : CircuitData) (t : ℚ)
    (hd : d.state = (if cfg.failureThreshold ≤ d.failureCount
        then CircuitState.opened else CircuitState.closed)) :
    (record_circuit_failure cfg (some d) t).1
      = { state := if cfg.failureThreshold ≤ d.failureCount + 1
            then CircuitState.opened else CircuitState.closed,
          failureCount := d.failureCount + 1, successCount := 0,
          lastFailureTime := t } := by
  by_cases hth : cfg.failureThreshold ≤ d.failureCount
  · rw [if_pos hth] at hd
    have hth1 : cfg.failureThreshold ≤ d.failureCount + 1 := by omega
    simp [record_circuit_failure, hd, hth1]
  · rw [if_neg hth] at hd
    by_cases hth1 : cfg.failureThreshold ≤ d.failureCount + 1
    · simp [record_circuit_failure, hd, hth1]
    · simp [record_circuit_failure, hd, hth1]

/-- Folding failure recordings preserves the threshold coherence of the
record: the count accumulates, and the state is Open exactly when the
accumulated count has reached the threshold. -/
theorem record_failures_invariant (cfg : CircuitBreakerConfig) (times : List ℚ) :
    ∀ d : CircuitData,
    d.state = (if cfg.failureThreshold ≤ d.failureCount
        then CircuitState.opened else CircuitState.closed) →
    ∃ d' : CircuitData, record_failures cfg (some d) times = some d' ∧
      d'.failureCount = d.failureCount + times.length ∧
      d'.state = (if cfg.failureThreshold ≤ d.failureCount + times.length
          then CircuitState.opened else CircuitState.closed) := by
  induction times with
  | nil =>
    intro d hd
    exact ⟨d, rfl, by simp, by simpa using hd⟩
  | cons t ts ih =>
    intro d hd
    rw [show record_failures cfg (some d) (t :: ts)
        = record_failures cfg (some (record_circuit_failure cfg (some d) t).1) ts
        from rfl,
      record_circuit_failure_step cfg d t hd]
    obtain ⟨d', hfold, hcount, hstate⟩ := ih
      { state := if cfg.failureThreshold ≤ d.failureCount + 1
          then CircuitState.opened else CircuitState.closed,
        failureCount := d.failureCount + 1, successCount := 0,
        lastFailureTime := t } rfl
    refine ⟨d', hfold, ?_, ?_⟩
    · have hc2 : d'.failureCount = d.failureCount + 1 + ts.length := hcount
      rw [List.length_cons, hc2]
      omega
    · have hs2 : d'.state
          = (if cfg.failureThreshold ≤ d.failureCount + 1 + ts.length
             then CircuitState.opened else CircuitState.closed) := hstate
      rw [List.length_cons,
        show d.failureCount + (ts.length + 1) = d.failureCount + 1 + ts.length
          from by omega]
      exact hs2

/-- Consecutive success recordings from HalfOpen: starting at success count
`c` with `c + n` equal to the threshold and at least one recording left, the
`n`-th recording writes the default Closed record. -/
theorem record_successes_close (cfg : CircuitBreakerConfig) :
    ∀ (n c : Nat) (d : CircuitData), d.state = CircuitState.halfOpen →
    d.successCount = c → c + n = cfg.successThreshold → 1 ≤ n →
    record_successes cfg d n = defaultCircuitData := by
  intro n
  induction n with
  | zero =>
    intro c d _ _ _ h1
    exact absurd h1 (by omega)
  | succ n ih =>
    intro c d hd hc hsum _
    by_cases hn : n = 0
    · subst hn
      have hth : cfg.successThreshold ≤ d.successCount + 1 := by omega
      have hrec : (record_circuit_success cfg (some d)).1 = defaultCircuitData := by
        simp [record_circuit_success, hd, hth]
      simp only [record_successes]
      rw [hrec]
    · have hth : ¬ (cfg.successThreshold ≤ d.successCount + 1) := by omega
      have hrec : (record_circuit_success cfg (some d)).1
          = { d with successCount := d.successCount + 1 } := by
        simp [record_circuit_success, hd, hth]
      simp only [record_successes]
      rw [hrec]
      exact ih (c + 1) _ hd (by simp [hc]) (by omega) (by omega)

/-- C3: the circuit-breaker state machine. `failureThreshold` consecutive
recorded failures starting from no record open the circuit; while Open and
strictly before `recoveryTimeout` has elapsed since the last failure,
admission is rejected; the first admission check at or after the timeout
rewrites the record to HalfOpen (success count zeroed) and admits;
`successThreshold` consecutive recorded successes in HalfOpen restore the
default Closed record; and any failure recorded in HalfOpen sets the state
back to Open. -/
theorem circuit_breaker_transitions (cfg : CircuitBreakerConfig)
    (times : List ℚ) (dOpen dHalf : CircuitData) (now1 now2 now3 : ℚ)
    (hft : 1 ≤ cfg.failureThreshold) (hst : 1 ≤ cfg.successThreshold)
    (hlen : times.length = cfg.failureThreshold)
    (hdo : dOpen.state = CircuitState.opened)
    (h1 : now1 - dOpen.lastFailureTime < (cfg.recoveryTimeout : ℚ))
    (h2 : (cfg.recoveryTimeout : ℚ) ≤ now2 - dOpen.lastFailureTime)
    (hdh : dHalf.state = CircuitState.halfOpen)
    (hdsc : dHalf.successCount = 0) :
    (∃ d', record_failures cfg none times = some d' ∧
       d'.state = CircuitState.opened ∧
       d'.failureCount = cfg.failureThreshold) ∧
    check_circuit_breaker cfg (some dOpen) now1 = (false, none) ∧
    check_circuit_breaker cfg (some dOpen) now2
      = (true,
         some { dOpen with state := CircuitState.halfOpen, successCount := 0 }) ∧
    record_successes cfg dHalf cfg.successThreshold = defaultCircuitData ∧
    (record_circuit_failure cfg (some dHalf) now3).1.state
      = CircuitState.opened := by
  refine ⟨?_, ?_, ?_, ?_, ?_⟩
  · cases times with
    | nil =>
      simp only [List.length_nil] at hlen
      omega
    | cons t ts =>
      have hlen' : ts.length + 1 = cfg.failureThreshold := by simpa using hlen
      have hd0 : defaultCircuitData.failureCount = 0 := rfl
      have hpre : defaultCircuitData.state
          = (if cfg.failureThreshold ≤ defaultCircuitData.failureCount
             then CircuitState.opened else CircuitState.closed) := by
        rw [hd0, if_neg (by omega)]
        rfl
      have hstep := record_circuit_failure_step cfg defaultCircuitData t hpre
      obtain ⟨d', hfold, hcount, hstate⟩ := record_failures_invariant cfg ts
        ((record_circuit_failure cfg (some defaultCircuitData) t).1) (by rw [hstep])
      have hcount' : d'.failureCount
          = defaultCircuitData.failureCount + 1 + ts.length := by
        rw [hstep] at hcount
        exact hcount
      have hstate' : d'.state
          = (if cfg.failureThreshold
                ≤ defaultCircuitData.failureCount + 1 + ts.length
             then CircuitState.opened else CircuitState.closed) := by
        rw [hstep] at hstate
        exact hstate
      refine ⟨d', ?_, ?_, ?_⟩
      · exact hfold
      · rw [hstate', if_pos (by rw [hd0]; omega)]
      · rw [hcount', hd0]
        omega
  · simp [check_circuit_breaker, hdo, not_le.mpr h1]
  · simp [check_circuit_breaker, hdo, h2]
  · exact record_successes_close cfg cfg.successThreshold 0 dHalf hdh hdsc
      (by omega) hst
  · by_cases hth : cfg.failureThreshold ≤ dHalf.failureCount + 1 <;>
      simp [record_circuit_failure, hdh, hth]

/-- C3 witness: with thresholds 2/2, two consecutive successes from a
HalfOpen record restore the default Closed record. -/
theorem circuit_breaker_transitions_witness :
    record_successes
        { failureThreshold := 2, recoveryTimeout := 60, successThreshold := 2,
          monitoringWindow := 300 }
        { state := CircuitState.halfOpen, failureCount := 2, successCount := 0,
          lastFailureTime := 10 } 2
      = defaultCircuitData :=
  (circuit_breaker_transitions
      { failureThreshold := 2, recoveryTimeout := 60, successThreshold := 2,
        monitoringWindow := 300 }
      [3, 7]
      { state := CircuitState.opened, failureCount := 2, successCount := 0,
        lastFailureTime := 10 }
      { state := CircuitState.halfOpen, failureCount := 2, successCount := 0,
        lastFailureTime := 10 }
      30 80 90 (by norm_num) (by norm_num) rfl rfl
      (by norm_num) (by norm_num) rfl rfl).2.2.2.1

end Langflow
